import Mathlib

/-!
Verification development for the `web_crawler` repository
(`list_clickable_items.js`, containing the `crawler.js` crawl engine with
`crawlPage`, `listClickableItems`, `generateCssSelector` and `isSameDomain`).

The JavaScript source is shallowly embedded: the DOM, the Selenium driver and
the SQLite store are external collaborators, so they appear as explicit data
(a `DomNode` tree, oracle fields on each clickable element, an environment
mapping URLs to pages, list-based tables with insert-if-absent writes).  All
embedded functions are executable and follow the control flow of the source
line by line.
-/

namespace WebCrawler

/-! ## DOM model for the selector generator

`generateCssSelector` (source lines 769–797) reads, for each node: its
`nodeType`, `nodeName`, `id`, `className`, its `parentNode`, and the position
of the node among `parentNode.children`.  A `DomNode` records exactly those
observations: `idx` is the 0-based index of the node in its parent's element
children, `nsib` the number of those children.  `nullNode` stands for a `null`
parent (detached node), `doc` for the document node (`nodeType ≠ ELEMENT_NODE`,
no `id`). -/

inductive DomNode where
  | doc : DomNode
  | nullNode : DomNode
  | elem (tag id cls : String) (idx nsib : Nat) (parent : DomNode) : DomNode
deriving Repr

/-! JavaScript string methods (`toLowerCase`, `trim`, whitespace splitting)
are modelled explicitly over the character list of a `String`. -/

/-- ASCII lowercasing of one character, as `String.prototype.toLowerCase`
does for the ASCII range tag names live in. -/
def lowerChar (c : Char) : Char :=
  if 'A' ≤ c ∧ c ≤ 'Z' then Char.ofNat (c.toNat + 32) else c

/-- `s.toLowerCase()`. -/
def jsToLower (s : String) : String := String.mk (s.data.map lowerChar)

/-- `s.trim()`: strip leading and trailing whitespace. -/
def jsTrim (s : String) : String :=
  String.mk (((s.data.dropWhile Char.isWhitespace).reverse.dropWhile
    Char.isWhitespace).reverse)

/-- Split a character list at whitespace characters; adjacent whitespace
yields empty pieces, which callers filter out. -/
def splitWsAux : List Char → List Char → List String
  | [], cur => [String.mk cur.reverse]
  | ch :: cs, cur =>
    if ch.isWhitespace then String.mk cur.reverse :: splitWsAux cs []
    else splitWsAux cs (ch :: cur)

def splitWs (s : String) : List String := splitWsAux s.data []

/-- `className.trim().replace(/\s+/g, '.')` from the source: trim, then each
run of whitespace becomes a single dot. -/
def jsClassDots (cls : String) : String :=
  String.intercalate "." ((splitWs (jsTrim cls)).filter
    (fun piece => piece ≠ ""))

/-- The per-node selector fragment built inside the `while` loop of
`generateCssSelector`: lowercase tag name, a class suffix when `className` is
truthy, and `:nth-child(index+1)` when `parentNode.children` has more than one
entry (`sibling.length > 1`; a `null` parent yields the empty collection). -/
def cssFragment (tag cls : String) (idx nsib : Nat) (parent : DomNode) : String :=
  let sel := jsToLower tag
  let sel := if cls ≠ "" then sel ++ "." ++ jsClassDots cls else sel
  let siblen := match parent with
    | DomNode.nullNode => 0
    | _ => nsib
  if 1 < siblen then sel ++ ":nth-child(" ++ toString (idx + 1) ++ ")" else sel

/-- The `while` loop of `generateCssSelector` with its `path` accumulator:
build the current node's fragment, `unshift` it, ascend to the parent; if the
parent is a non-null node with a truthy `id`, `unshift "#" + id` and `break`;
a `null` parent or the document node ends the loop. -/
def genPath : DomNode → List String → List String
  | DomNode.doc, path => path
  | DomNode.nullNode, path => path
  | DomNode.elem tag _ cls idx nsib parent, path =>
    let sel := cssFragment tag cls idx nsib parent
    let path2 := sel :: path
    match parent with
    | DomNode.elem _ pid _ _ _ _ =>
      if pid ≠ "" then ("#" ++ pid) :: path2 else genPath parent path2
    | _ => path2

/-- `generateCssSelector` (source lines 769–797).  Returns `none` for a
non-element node (`return null`); short-circuits to `"#" + id` for an element
with a truthy `id`; otherwise runs the ancestor walk and joins with `" > "`. -/
def generateCssSelector : DomNode → Option String
  | DomNode.doc => none
  | DomNode.nullNode => none
  | DomNode.elem tag id cls idx nsib parent =>
    if id ≠ "" then some ("#" ++ id)
    else some (String.intercalate " > "
      (genPath (DomNode.elem tag id cls idx nsib parent) []))

/-! Spec-side rendering of claim C5: the fragments are accumulated by walking
upward and *appending* the current node's fragment after the (recursively
computed) ancestor fragments, stopping at an identified ancestor or at the top;
the claim's description of one fragment (lowercase tag name, class suffix when
a class is present, `:nth-child(k)` with `k` the 1-based position among the
parent's children when the node has sibling elements) is `cssFragment`. -/

/-- Fragment list described by claim C5, nearest-identified-ancestor first. -/
def specFragments : DomNode → List String
  | DomNode.doc => []
  | DomNode.nullNode => []
  | DomNode.elem tag _ cls idx nsib parent =>
    (match parent with
     | DomNode.elem _ pid _ _ _ _ =>
       if pid ≠ "" then ["#" ++ pid] else specFragments parent
     | _ => []) ++ [cssFragment tag cls idx nsib parent]

/-- Selector described by claim C5: `"#" + id` short-circuit for a non-empty
id regardless of ancestry, otherwise the upward walk joined with `" > "`. -/
def selectorSpec : DomNode → Option String
  | DomNode.doc => none
  | DomNode.nullNode => none
  | DomNode.elem tag id cls idx nsib parent =>
    if id ≠ "" then some ("#" ++ id)
    else some (String.intercalate " > "
      (specFragments (DomNode.elem tag id cls idx nsib parent)))

/-! ## URL parsing and `isSameDomain`

`new URL(candidate, base)` is the Node.js standard library, an external
collaborator: it is abstracted as a total parse function returning `none`
where the constructor would throw.  `isSameDomain` itself (source lines
819–827) is embedded faithfully over that interface. -/

structure UrlParts where
  hostname : String
deriving Repr, DecidableEq

/-- External URL library interface: `parse s none` models `new URL(s)`,
`parse s (some base)` models `new URL(s, base)`; `none` models a thrown
`TypeError` for an unparsable URL. -/
structure UrlApi where
  parse : String → Option String → Option UrlParts

/-- `isSameDomain(currentUrl, newUrl)` (source lines 819–827): parse
`currentUrl` absolutely, resolve `newUrl` against `currentUrl` as base,
compare hostnames with `===`; any parse failure is caught and yields
`false`. -/
def isSameDomain (api : UrlApi) (currentUrl newUrl : String) : Bool :=
  match api.parse currentUrl none with
  | none => false
  | some current =>
    match api.parse newUrl (some currentUrl) with
    | none => false
    | some newLink => current.hostname == newLink.hostname

/-- Concrete little URL library used to run the model on closed inputs:
`http://host/path` absolute URLs, and `/`-rooted relative references resolved
against the base's host.  (A test instance of `UrlApi`, not repository
code.) -/
def hostOf (s : String) : Option String :=
  if s.data.take 7 = "http://".data then
    let h := String.mk ((s.data.drop 7).takeWhile (fun ch => ch ≠ '/'))
    if h = "" then none else some h
  else none

def simpleParse (s : String) (base : Option String) : Option UrlParts :=
  match hostOf s with
  | some h => some ⟨h⟩
  | none =>
    match base with
    | none => none
    | some b =>
      match hostOf b with
      | none => none
      | some hb => if s.data.take 1 = ['/'] then some ⟨hb⟩ else none

def simpleApi : UrlApi := ⟨simpleParse⟩

/-! ## Element descriptors and `listClickableItems`

A `Clickable` records what the Selenium driver reports for one element that
matched the discovery XPath
(`//body//*[self::a or self::button or @href or @onclick or @role='button']`),
together with the oracle outcomes of the driver operations the interaction
loop will later perform on it (all external collaborator behavior):

* `infoOk` — extracting tag/text/attribute/selector succeeds (a stale element
  throws and is skipped by the discoverer's per-element `catch`);
* `locatable` — `driver.findElement(By.css(selector))` succeeds later;
* `scrollWaitOk` — `scrollIntoView` and the visible/enabled waits succeed;
* `clickOk` — `element.click()` itself does not throw;
* `clickTarget` — `some u`: the click navigates the browser to `u`;
  `none`: the browser URL is unchanged after the click. -/

structure Clickable where
  selector : String
  tagName : String
  text : String
  hrefAttr : Option String
  infoOk : Bool
  locatable : Bool
  scrollWaitOk : Bool
  clickOk : Bool
  clickTarget : Option String
deriving Repr, DecidableEq

structure ElementDescriptor where
  selector : String
  tagName : String
  textContent : String
  href : String
deriving Repr, DecidableEq

/-- `tagName.toLowerCase() === 'a' || tagName.toLowerCase() === 'link'`. -/
def isAnchorOrLink (tag : String) : Bool :=
  jsToLower tag == "a" || jsToLower tag == "link"

/-- The descriptor pushed by `listClickableItems` (source lines 756–814):
tag name as reported, `getText()` trimmed, and `href` read from the element
only for anchor/link tags, with `href || ''` collapsing `null` to the empty
string. -/
def mkDescriptor (c : Clickable) : ElementDescriptor :=
  { selector := c.selector
    tagName := c.tagName
    textContent := jsTrim c.text
    href := if isAnchorOrLink c.tagName then c.hrefAttr.getD "" else "" }

/-- `listClickableItems(driver)` (source lines 748–815): one descriptor per
matched element whose info extraction succeeded; a per-element failure is
caught and that element is skipped. -/
def listClickableItems (matched : List Clickable) : List ElementDescriptor :=
  (matched.filter (fun c => c.infoOk)).map mkDescriptor

/-! ## Persistence model

`crawler_data.db` with `INSERT OR IGNORE` on the unique keys declared in the
schema (source lines 541–573): `visited_urls.url` unique, `page_contents.url`
unique, `clickable_nodes (page_url, other_attributes)` unique. -/

structure ClickableRow where
  pageUrl : String
  tagName : String
  textContent : String
  href : String
  onclickAttr : String
  otherAttributes : String
deriving Repr, DecidableEq

structure Db where
  pageContents : List (String × String)
  visitedRows : List String
  clickableRows : List ClickableRow
deriving Repr, DecidableEq

/-- `INSERT OR IGNORE INTO page_contents (url, content)`: no-op when a row
with the same unique `url` exists. -/
def pcInsert (url content : String) (tbl : List (String × String)) :
    List (String × String) :=
  if tbl.any (fun r => r.1 == url) then tbl else tbl ++ [(url, content)]

/-- `INSERT OR IGNORE INTO visited_urls (url)`. -/
def vuInsert (url : String) (tbl : List String) : List String :=
  if tbl.any (fun r => r == url) then tbl else tbl ++ [url]

/-- `INSERT OR IGNORE INTO clickable_nodes ...` with unique key
`(page_url, other_attributes)`. -/
def cnInsert (row : ClickableRow) (tbl : List ClickableRow) : List ClickableRow :=
  if tbl.any (fun r => r.pageUrl == row.pageUrl &&
      r.otherAttributes == row.otherAttributes) then tbl
  else tbl ++ [row]

/-! ## Crawl state and observable events -/

/-- Observable driver/logging actions, in execution order.  `waitUrl u ok`
records `driver.wait(until.urlIs(u), 5000)` and whether it succeeded or timed
out; `logErr site` records a `console.error` at the given source site. -/
inductive Ev where
  | nav (url : String)
  | refresh
  | back
  | click (selector : String)
  | waitUrl (url : String) (ok : Bool)
  | logErr (site : String)
deriving Repr, DecidableEq

/-- `console.error` site labels used by the model. -/
def siteFind : String := "findElement"
def siteElement : String := "processing element"
def sitePage : String := "crawl"

structure CrawlState where
  visited : List String
  db : Db
  browserUrl : String
  history : List String
  events : List Ev
deriving Repr, DecidableEq

def pushEv (e : Ev) (s : CrawlState) : CrawlState :=
  { s with events := s.events ++ [e] }

/-- `visitedUrls.add(url)` on the in-memory `Set`. -/
def markVisited (url : String) (s : CrawlState) : CrawlState :=
  { s with visited := if s.visited.contains url then s.visited else url :: s.visited }

/-- `driver.get(url)` followed by the successful body wait: browser navigates
(pushing the previous URL on the history) and the event is recorded. -/
def doNav (url : String) (s : CrawlState) : CrawlState :=
  { s with browserUrl := url
           history := s.browserUrl :: s.history
           events := s.events ++ [Ev.nav url] }

/-- `driver.navigate().refresh()`: reloads, browser URL unchanged. -/
def doRefresh (s : CrawlState) : CrawlState := pushEv Ev.refresh s

/-- `driver.navigate().back()`: pop one history entry. -/
def doBack (s : CrawlState) : CrawlState :=
  let s := pushEv Ev.back s
  match s.history with
  | [] => s
  | h :: t => { s with browserUrl := h, history := t }

/-- `element.click()` and the 2-second settle sleep: the oracle says whether
the click navigated, and where. -/
def applyClick (c : Clickable) (s : CrawlState) : CrawlState :=
  let s := pushEv (Ev.click c.selector) s
  match c.clickTarget with
  | none => s
  | some u => { s with history := s.browserUrl :: s.history, browserUrl := u }

def insertPageContent (url content : String) (s : CrawlState) : CrawlState :=
  { s with db := { s.db with pageContents := pcInsert url content s.db.pageContents } }

def insertVisitedUrl (url : String) (s : CrawlState) : CrawlState :=
  { s with db := { s.db with visitedRows := vuInsert url s.db.visitedRows } }

def insertClickableNode (row : ClickableRow) (s : CrawlState) : CrawlState :=
  { s with db := { s.db with clickableRows := cnInsert row s.db.clickableRows } }

/-- The row `crawlPage` stores for a descriptor: onclick `''`,
`other_attributes` = `"selector: " ++ selector`. -/
def descriptorRow (pageUrl : String) (d : ElementDescriptor) : ClickableRow :=
  { pageUrl := pageUrl
    tagName := d.tagName
    textContent := d.textContent
    href := d.href
    onclickAttr := ""
    otherAttributes := "selector: " ++ d.selector }

/-! ## Environment: the browser collaborator -/

/-- What `driver.get(url)` + body wait + `document.body.innerText` +
`listClickableItems` observe on a page.  `pages url = none` models a
navigation or readiness-wait failure for that URL (caught by the page-level
`catch`). -/
structure Page where
  bodyText : String
  clickables : List Clickable
deriving DecidableEq

structure Env where
  pages : String → Option Page
  urlApi : UrlApi

/-- `const MAX_DEPTH = 2` (source line 535). -/
def MAX_DEPTH : Nat := 2

/-- The `catch` at source lines 733–738: log the element error, refresh the
page, wait for `until.urlIs(pageUrl)`.  Returns the updated state and whether
recovery succeeded; when the recovery wait also times out, its exception
escapes the per-descriptor handler. -/
def recoverState (pageUrl : String) (s : CrawlState) : CrawlState × Bool :=
  let s := pushEv (Ev.logErr siteElement) s
  let s := doRefresh s
  if s.browserUrl == pageUrl then (pushEv (Ev.waitUrl pageUrl true) s, true)
  else (pushEv (Ev.waitUrl pageUrl false) s, false)

/-- The per-descriptor interaction loop of `crawlPage` (source lines 667–741),
parameterized by the recursive call `recurse` used in the same-domain
navigation branch.  Each iteration: store the clickable-node row; skip
external hrefs; re-locate by selector (log and continue on failure, lines
696–703); scroll/wait/click; branch on navigation; the per-descriptor `catch`
logs, refreshes and waits for the page URL — if that wait also times out the
exception propagates to the page-level `catch` (line 743, logged), aborting
the remaining descriptors. -/
def processListGo (env : Env) (recurse : String → CrawlState → CrawlState)
    (pageUrl : String) : List Clickable → CrawlState → CrawlState
  | [], s => s
  | c :: rest, s =>
    let d := mkDescriptor c
    let s := insertClickableNode (descriptorRow pageUrl d) s
    if d.href != "" && !(isSameDomain env.urlApi pageUrl d.href) then
      processListGo env recurse pageUrl rest s
    else if !c.locatable then
      processListGo env recurse pageUrl rest (pushEv (Ev.logErr siteFind) s)
    else if !c.scrollWaitOk then
      match recoverState pageUrl s with
      | (s', true) => processListGo env recurse pageUrl rest s'
      | (s', false) => pushEv (Ev.logErr sitePage) s'
    else
      let currentUrl := s.browserUrl
      if !c.clickOk then
        match recoverState pageUrl s with
        | (s', true) => processListGo env recurse pageUrl rest s'
        | (s', false) => pushEv (Ev.logErr sitePage) s'
      else
        let s := applyClick c s
        let newUrl := s.browserUrl
        if newUrl != currentUrl && isSameDomain env.urlApi pageUrl newUrl then
          let s := recurse newUrl s
          let s := doBack s
          if s.browserUrl == currentUrl then
            processListGo env recurse pageUrl rest
              (pushEv (Ev.waitUrl currentUrl true) s)
          else
            match recoverState pageUrl (pushEv (Ev.waitUrl currentUrl false) s) with
            | (s', true) => processListGo env recurse pageUrl rest s'
            | (s', false) => pushEv (Ev.logErr sitePage) s'
        else
          let s := doRefresh s
          if s.browserUrl == currentUrl then
            processListGo env recurse pageUrl rest
              (pushEv (Ev.waitUrl currentUrl true) s)
          else
            match recoverState pageUrl (pushEv (Ev.waitUrl currentUrl false) s) with
            | (s', true) => processListGo env recurse pageUrl rest s'
            | (s', false) => pushEv (Ev.logErr sitePage) s'

/-- `crawlPage(driver, url, visitedUrls, depth)` (source lines 621–746), with
an explicit recursion budget `gas`.  The wrapper `crawlPage` instantiates
`gas = MAX_DEPTH + 1 - depth`, which mirrors the source's termination
argument: the admission guard makes every call with `depth > MAX_DEPTH`
return before the `gas = 0` case can ever be reached, and each recursive call
uses `depth + 1` and hence one unit less gas. -/
def crawlPageAux (env : Env) : Nat → String → Nat → CrawlState → CrawlState
  | 0, _, _, s => s
  | gas + 1, url, depth, s =>
    if url ∈ s.visited ∨ MAX_DEPTH < depth then s
    else
      let s1 := markVisited url s
      match env.pages url with
      | none => pushEv (Ev.logErr sitePage) s1
      | some pg =>
        let s2 := doNav url s1
        let s3 := insertPageContent url pg.bodyText s2
        let s4 := insertVisitedUrl url s3
        processListGo env (fun u t => crawlPageAux env gas u (depth + 1) t)
          url (pg.clickables.filter (fun c => c.infoOk)) s4

/-- `crawlPage` proper: admission guard, mark-visited, navigate, extract,
persist, interaction loop; recursive calls use `depth + 1`. -/
def crawlPage (env : Env) (url : String) (depth : Nat) (s : CrawlState) :
    CrawlState :=
  crawlPageAux env (MAX_DEPTH + 1 - depth) url depth s

/-- The post-admission body of `crawlPage`, written with the recursion spelled
out via `crawlPage` itself: mark the URL visited, then navigate (a failed
navigation or readiness wait is caught and logged with the URL already
marked), then store the page-content and visited-url rows, then run the
interaction loop.  `crawlPage` equals this body whenever the admission guard
admits — see `crawlPage_admission`. -/
def crawlBody (env : Env) (url : String) (depth : Nat) (s : CrawlState) :
    CrawlState :=
  let s1 := markVisited url s
  match env.pages url with
  | none => pushEv (Ev.logErr sitePage) s1
  | some pg =>
    let s2 := doNav url s1
    let s3 := insertPageContent url pg.bodyText s2
    let s4 := insertVisitedUrl url s3
    processListGo env (fun u t => crawlPage env u (depth + 1) t)
      url (pg.clickables.filter (fun c => c.infoOk)) s4

/-! ## Db invariant

The unique keys declared in the SQLite schema, as predicates on the model's
tables: `page_contents.url` unique and `visited_urls.url` unique. -/

def DbInv (s : CrawlState) : Prop :=
  (s.db.pageContents.map Prod.fst).Nodup ∧ s.db.visitedRows.Nodup

/-! ## Concrete fixtures

Closed states and environments used to run the model on specific inputs. -/

def initialState : CrawlState :=
  { visited := [], db := { pageContents := [], visitedRows := [], clickableRows := [] },
    browserUrl := "", history := [], events := [] }

/-- A healthy non-anchor clickable element whose click (if any) navigates to
`tgt`. -/
def mkButton (sel : String) (tgt : Option String) : Clickable :=
  { selector := sel, tagName := "button", text := "go", hrefAttr := none,
    infoOk := true, locatable := true, scrollWaitOk := true, clickOk := true,
    clickTarget := tgt }

/-- Environment with no loadable pages at all. -/
def envTrivial : Env := { pages := fun _ => none, urlApi := simpleApi }

/-- Page whose first element's click navigates cross-domain and whose second
element is an ordinary button. -/
def pageCross : Page :=
  { bodyText := "body",
    clickables := [mkButton "s1" (some "http://b.site/x"), mkButton "s2" none] }

def envCross : Env :=
  { pages := fun u => if u = "http://a.site/" then some pageCross else none,
    urlApi := simpleApi }

/-- Page with two elements whose persisted selectors are both stale. -/
def pageStale : Page :=
  { bodyText := "body",
    clickables := [{ mkButton "t1" none with locatable := false },
                   { mkButton "t2" none with locatable := false }] }

def envStale : Env :=
  { pages := fun u => if u = "http://c.site/" then some pageStale else none,
    urlApi := simpleApi }

/-- Page with one same-domain anchor whose click performs no navigation; the
link's target page exists and is crawlable. -/
def anchorNoNav : Clickable :=
  { selector := "a1", tagName := "a", text := "next",
    hrefAttr := some "http://d.site/next", infoOk := true, locatable := true,
    scrollWaitOk := true, clickOk := true, clickTarget := none }

def pageAnchor : Page := { bodyText := "body", clickables := [anchorNoNav] }

def envAnchor : Env :=
  { pages := fun u =>
      if u = "http://d.site/" then some pageAnchor
      else if u = "http://d.site/next" then
        some { bodyText := "next", clickables := [] }
      else none
    urlApi := simpleApi }

/-- Page with a single element whose click navigates cross-domain. -/
def pageNoNav : Page :=
  { bodyText := "body", clickables := [mkButton "u1" (some "http://x.site/q")] }

def envNoNav : Env :=
  { pages := fun u => if u = "http://h.site/" then some pageNoNav else none,
    urlApi := simpleApi }

/-- Environment with one element-free page, for revisit runs. -/
def envPlain : Env :=
  { pages := fun u =>
      if u = "http://w.site/" then some { bodyText := "w", clickables := [] }
      else none
    urlApi := simpleApi }

/-- Element whose scroll/visibility waits throw. -/
def badWaitButton : Clickable := { mkButton "w1" none with scrollWaitOk := false }

/-- Element whose click navigates cross-domain (for direct loop runs). -/
def crossButton : Clickable := mkButton "w2" (some "http://z.site/far")

/-- A state sitting on a given page URL. -/
def onPage (u : String) : CrawlState := { initialState with browserUrl := u }

/-- Element whose persisted selector is stale (not re-locatable). -/
def staleBtn : Clickable := { mkButton "t0" none with locatable := false }

/-- Element whose click itself throws. -/
def badClickButton : Clickable := { mkButton "w3" none with clickOk := false }

/-- A discovered anchor element with surrounding whitespace in its text. -/
def sampleAnchor : Clickable :=
  { selector := "a9", tagName := "a", text := "  hi  ",
    hrefAttr := some "http://s.site/x", infoOk := true, locatable := true,
    scrollWaitOk := true, clickOk := true, clickTarget := none }

/-! ## Supporting lemmas -/

lemma genPath_step (tag id cls ptag pcls : String) (idx nsib pidx pnsib : Nat)
    (pp : DomNode) (acc : List String) :
    genPath (DomNode.elem tag id cls idx nsib
        (DomNode.elem ptag "" pcls pidx pnsib pp)) acc =
      genPath (DomNode.elem ptag "" pcls pidx pnsib pp)
        (cssFragment tag cls idx nsib (DomNode.elem ptag "" pcls pidx pnsib pp)
          :: acc) := by
  conv_lhs => rw [genPath]
  simp

lemma specFragments_step (tag id cls ptag pcls : String)
    (idx nsib pidx pnsib : Nat) (pp : DomNode) :
    specFragments (DomNode.elem tag id cls idx nsib
        (DomNode.elem ptag "" pcls pidx pnsib pp)) =
      specFragments (DomNode.elem ptag "" pcls pidx pnsib pp) ++
        [cssFragment tag cls idx nsib
          (DomNode.elem ptag "" pcls pidx pnsib pp)] := by
  conv_lhs => rw [specFragments]
  simp

lemma genPath_eq_specFragments_append :
    ∀ (e : DomNode) (acc : List String), genPath e acc = specFragments e ++ acc := by
  intro e
  induction e with
  | doc => intro acc; simp [genPath, specFragments]
  | nullNode => intro acc; simp [genPath, specFragments]
  | elem tag id cls idx nsib parent ih =>
    intro acc
    cases parent with
    | doc => simp [genPath, specFragments]
    | nullNode => simp [genPath, specFragments]
    | elem ptag pid pcls pidx pnsib pparent =>
      by_cases hpid : pid ≠ ""
      · simp [genPath, specFragments, hpid]
      · simp only [ne_eq, not_not] at hpid
        subst hpid
        rw [genPath_step, ih, specFragments_step, List.append_assoc,
          List.singleton_append]

/-! State-component lemmas: which operations touch which components. -/

@[simp] lemma pushEv_visited (e : Ev) (s : CrawlState) :
    (pushEv e s).visited = s.visited := rfl

@[simp] lemma pushEv_db (e : Ev) (s : CrawlState) : (pushEv e s).db = s.db := rfl

@[simp] lemma pushEv_browserUrl (e : Ev) (s : CrawlState) :
    (pushEv e s).browserUrl = s.browserUrl := rfl

@[simp] lemma doNav_visited (u : String) (s : CrawlState) :
    (doNav u s).visited = s.visited := rfl

@[simp] lemma doNav_db (u : String) (s : CrawlState) : (doNav u s).db = s.db := rfl

@[simp] lemma doRefresh_visited (s : CrawlState) :
    (doRefresh s).visited = s.visited := rfl

@[simp] lemma doRefresh_db (s : CrawlState) : (doRefresh s).db = s.db := rfl

@[simp] lemma doRefresh_browserUrl (s : CrawlState) :
    (doRefresh s).browserUrl = s.browserUrl := rfl

@[simp] lemma doBack_visited (s : CrawlState) : (doBack s).visited = s.visited := by
  cases h : s.history <;> simp [doBack, pushEv, h]

@[simp] lemma doBack_db (s : CrawlState) : (doBack s).db = s.db := by
  cases h : s.history <;> simp [doBack, pushEv, h]

@[simp] lemma applyClick_visited (c : Clickable) (s : CrawlState) :
    (applyClick c s).visited = s.visited := by
  unfold applyClick
  cases c.clickTarget <;> rfl

@[simp] lemma applyClick_db (c : Clickable) (s : CrawlState) :
    (applyClick c s).db = s.db := by
  unfold applyClick
  cases c.clickTarget <;> rfl

@[simp] lemma insertPageContent_visited (u c : String) (s : CrawlState) :
    (insertPageContent u c s).visited = s.visited := rfl

@[simp] lemma insertVisitedUrl_visited (u : String) (s : CrawlState) :
    (insertVisitedUrl u s).visited = s.visited := rfl

@[simp] lemma insertClickableNode_visited (row : ClickableRow) (s : CrawlState) :
    (insertClickableNode row s).visited = s.visited := rfl

@[simp] lemma insertClickableNode_browserUrl (row : ClickableRow) (s : CrawlState) :
    (insertClickableNode row s).browserUrl = s.browserUrl := rfl

@[simp] lemma insertClickableNode_pageContents (row : ClickableRow) (s : CrawlState) :
    (insertClickableNode row s).db.pageContents = s.db.pageContents := rfl

@[simp] lemma insertClickableNode_visitedRows (row : ClickableRow) (s : CrawlState) :
    (insertClickableNode row s).db.visitedRows = s.db.visitedRows := rfl

@[simp] lemma insertPageContent_visitedRows (u c : String) (s : CrawlState) :
    (insertPageContent u c s).db.visitedRows = s.db.visitedRows := rfl

@[simp] lemma insertPageContent_pageContents (u c : String) (s : CrawlState) :
    (insertPageContent u c s).db.pageContents = pcInsert u c s.db.pageContents := rfl

@[simp] lemma insertVisitedUrl_visitedRows (u : String) (s : CrawlState) :
    (insertVisitedUrl u s).db.visitedRows = vuInsert u s.db.visitedRows := rfl

@[simp] lemma insertVisitedUrl_pageContents (u : String) (s : CrawlState) :
    (insertVisitedUrl u s).db.pageContents = s.db.pageContents := rfl

@[simp] lemma markVisited_db (u : String) (s : CrawlState) :
    (markVisited u s).db = s.db := rfl

lemma markVisited_visited_subset (u : String) (s : CrawlState) :
    s.visited ⊆ (markVisited u s).visited := by
  unfold markVisited
  split
  · exact List.Subset.refl _
  · exact fun x hx => List.mem_cons_of_mem _ hx

lemma mem_markVisited (u : String) (s : CrawlState) :
    u ∈ (markVisited u s).visited := by
  unfold markVisited
  split
  · next h => simpa using h
  · exact List.mem_cons_self _ _

/-- In either branch, the recovery handler appends the element-error log, a
refresh, and the wait event. -/
lemma recoverState_eq (p : String) (s s' : CrawlState) (b : Bool)
    (h : recoverState p s = (s', b)) :
    s' = pushEv (Ev.waitUrl p b) (doRefresh (pushEv (Ev.logErr siteElement) s)) := by
  simp only [recoverState] at h
  split at h <;> (cases h; rfl)

/-- The interaction loop never removes URLs from the in-memory visited set,
as long as the recursive call does not. -/
lemma processListGo_visited_mono (env : Env)
    (recurse : String → CrawlState → CrawlState) (pageUrl : String)
    (hrec : ∀ u t, t.visited ⊆ (recurse u t).visited) :
    ∀ (cs : List Clickable) (s : CrawlState),
      s.visited ⊆ (processListGo env recurse pageUrl cs s).visited := by
  intro cs
  induction cs with
  | nil => intro s; rw [processListGo]; exact List.Subset.refl _
  | cons c rest ih =>
    intro s
    simp only [processListGo]
    split
    · exact List.Subset.trans (by simp) (ih _)
    · split
      · exact List.Subset.trans (by simp) (ih _)
      · split
        · split
          · next s' heq =>
            rw [recoverState_eq _ _ _ _ heq]
            exact List.Subset.trans (by simp) (ih _)
          · next s' heq =>
            rw [recoverState_eq _ _ _ _ heq]
            simp
        · split
          · split
            · next s' heq =>
              rw [recoverState_eq _ _ _ _ heq]
              exact List.Subset.trans (by simp) (ih _)
            · next s' heq =>
              rw [recoverState_eq _ _ _ _ heq]
              simp
          · split
            · split
              · refine List.Subset.trans ?_ (ih _)
                simp only [pushEv_visited, doBack_visited]
                exact List.Subset.trans (by simp) (hrec _ _)
              · split
                · next s' heq =>
                  rw [recoverState_eq _ _ _ _ heq]
                  refine List.Subset.trans ?_ (ih _)
                  simp only [pushEv_visited, doRefresh_visited, doBack_visited]
                  exact List.Subset.trans (by simp) (hrec _ _)
                · next s' heq =>
                  rw [recoverState_eq _ _ _ _ heq]
                  simp only [pushEv_visited, doRefresh_visited, doBack_visited]
                  exact List.Subset.trans (by simp) (hrec _ _)
            · split
              · exact List.Subset.trans (by simp) (ih _)
              · split
                · next s' heq =>
                  rw [recoverState_eq _ _ _ _ heq]
                  exact List.Subset.trans (by simp) (ih _)
                · next s' heq =>
                  rw [recoverState_eq _ _ _ _ heq]
                  simp

lemma crawlPageAux_visited_mono :
    ∀ (gas : Nat) (env : Env) (url : String) (depth : Nat) (s : CrawlState),
      s.visited ⊆ (crawlPageAux env gas url depth s).visited := by
  intro gas
  induction gas with
  | zero => intro env url depth s; rw [crawlPageAux]; exact List.Subset.refl _
  | succ g ih =>
    intro env url depth s
    rw [crawlPageAux]
    split
    · exact List.Subset.refl _
    · cases hpg : env.pages url with
      | none =>
        simp only [hpg, pushEv_visited]
        exact markVisited_visited_subset _ _
      | some pg =>
        simp only [hpg]
        refine List.Subset.trans ?_
          (processListGo_visited_mono env _ url (fun u t => ih env u (depth + 1) t) _ _)
        simp only [insertVisitedUrl_visited, insertPageContent_visited, doNav_visited]
        exact markVisited_visited_subset _ _

lemma crawlPage_visited_mono (env : Env) (url : String) (depth : Nat)
    (s : CrawlState) : s.visited ⊆ (crawlPage env url depth s).visited :=
  crawlPageAux_visited_mono _ env url depth s

/-! Preservation of the unique-key invariants of the store. -/

lemma pcInsert_keys_nodup (u c : String) (tbl : List (String × String))
    (h : (tbl.map Prod.fst).Nodup) :
    ((pcInsert u c tbl).map Prod.fst).Nodup := by
  unfold pcInsert
  split
  · exact h
  · next hany =>
    have hnot : u ∉ tbl.map Prod.fst := by
      simp only [List.any_eq_true, beq_iff_eq, not_exists] at hany
      simp only [List.mem_map, not_exists]
      intro r hr
      exact hany r hr
    simp only [List.map_append, List.map_cons, List.map_nil]
    exact List.Nodup.append h (List.nodup_singleton u)
      (by simpa [List.disjoint_singleton] using hnot)

lemma vuInsert_nodup (u : String) (tbl : List String) (h : tbl.Nodup) :
    (vuInsert u tbl).Nodup := by
  unfold vuInsert
  split
  · exact h
  · next hany =>
    have hnot : u ∉ tbl := by
      simp only [List.any_eq_true, beq_iff_eq, not_exists] at hany
      intro hmem
      exact hany u ⟨hmem, rfl⟩
    exact List.Nodup.append h (List.nodup_singleton u)
      (by simpa [List.disjoint_singleton] using hnot)

lemma dbInv_pushEv (e : Ev) (s : CrawlState) (h : DbInv s) : DbInv (pushEv e s) := by
  simpa [DbInv] using h

lemma dbInv_insertClickableNode (row : ClickableRow) (s : CrawlState)
    (h : DbInv s) : DbInv (insertClickableNode row s) := by
  simpa [DbInv] using h

lemma dbInv_applyClick (c : Clickable) (s : CrawlState) (h : DbInv s) :
    DbInv (applyClick c s) := by
  simpa [DbInv] using h

lemma dbInv_doBack (s : CrawlState) (h : DbInv s) : DbInv (doBack s) := by
  simpa [DbInv] using h

lemma processListGo_dbInv (env : Env)
    (recurse : String → CrawlState → CrawlState) (pageUrl : String)
    (hrec : ∀ u t, DbInv t → DbInv (recurse u t)) :
    ∀ (cs : List Clickable) (s : CrawlState),
      DbInv s → DbInv (processListGo env recurse pageUrl cs s) := by
  intro cs
  induction cs with
  | nil => intro s h; rwa [processListGo]
  | cons c rest ih =>
    intro s h
    have h1 : DbInv (insertClickableNode
        (descriptorRow pageUrl (mkDescriptor c)) s) :=
      dbInv_insertClickableNode _ _ h
    simp only [processListGo]
    split
    · exact ih _ h1
    · split
      · exact ih _ (dbInv_pushEv _ _ h1)
      · split
        · split
          · next s' heq =>
            rw [recoverState_eq _ _ _ _ heq]
            exact ih _ (by simpa [DbInv] using h1)
          · next s' heq =>
            rw [recoverState_eq _ _ _ _ heq]
            simpa [DbInv] using h1
        · split
          · split
            · next s' heq =>
              rw [recoverState_eq _ _ _ _ heq]
              exact ih _ (by simpa [DbInv] using h1)
            · next s' heq =>
              rw [recoverState_eq _ _ _ _ heq]
              simpa [DbInv] using h1
          · split
            · have h2 : DbInv (doBack (recurse
                  (applyClick c (insertClickableNode
                    (descriptorRow pageUrl (mkDescriptor c)) s)).browserUrl
                  (applyClick c (insertClickableNode
                    (descriptorRow pageUrl (mkDescriptor c)) s)))) :=
                dbInv_doBack _ (hrec _ _ (dbInv_applyClick _ _ h1))
              split
              · exact ih _ (dbInv_pushEv _ _ h2)
              · split
                · next s' heq =>
                  rw [recoverState_eq _ _ _ _ heq]
                  exact ih _ (by simpa [DbInv] using h2)
                · next s' heq =>
                  rw [recoverState_eq _ _ _ _ heq]
                  simpa [DbInv] using h2
            · split
              · exact ih _ (by simpa [DbInv] using h1)
              · split
                · next s' heq =>
                  rw [recoverState_eq _ _ _ _ heq]
                  exact ih _ (by simpa [DbInv] using h1)
                · next s' heq =>
                  rw [recoverState_eq _ _ _ _ heq]
                  simpa [DbInv] using h1

lemma crawlPageAux_dbInv :
    ∀ (gas : Nat) (env : Env) (url : String) (depth : Nat) (s : CrawlState),
      DbInv s → DbInv (crawlPageAux env gas url depth s) := by
  intro gas
  induction gas with
  | zero => intro env url depth s h; rwa [crawlPageAux]
  | succ g ih =>
    intro env url depth s h
    rw [crawlPageAux]
    split
    · exact h
    · cases hpg : env.pages url with
      | none =>
        simp only [hpg]
        exact ⟨by simpa using h.1, by simpa using h.2⟩
      | some pg =>
        simp only [hpg]
        refine processListGo_dbInv env _ url (fun u t => ih env u (depth + 1) t) _ _ ?_
        refine ⟨?_, ?_⟩
        · simp only [insertVisitedUrl_pageContents, insertPageContent_pageContents]
          refine pcInsert_keys_nodup _ _ _ ?_
          simp only [doNav_db, markVisited_db]
          exact h.1
        · simp only [insertVisitedUrl_visitedRows, insertPageContent_visitedRows]
          refine vuInsert_nodup _ _ ?_
          simp only [doNav_db, markVisited_db]
          exact h.2

lemma crawlPage_dbInv (env : Env) (url : String) (depth : Nat) (s : CrawlState)
    (h : DbInv s) : DbInv (crawlPage env url depth s) :=
  crawlPageAux_dbInv _ env url depth s h

/-! Counting consequences of the unique-key invariants. -/

lemma filter_fst_eq_nil (u : String) (tbl : List (String × String))
    (h : u ∉ tbl.map Prod.fst) :
    tbl.filter (fun r => r.1 == u) = [] := by
  refine List.filter_eq_nil_iff.mpr ?_
  intro r hr
  simp only [beq_iff_eq]
  intro hru
  exact h (List.mem_map.mpr ⟨r, hr, hru⟩)

lemma filter_key_length_le_one (tbl : List (String × String)) (u : String)
    (h : (tbl.map Prod.fst).Nodup) :
    (tbl.filter (fun r => r.1 == u)).length ≤ 1 := by
  induction tbl with
  | nil => simp
  | cons a t iht =>
    simp only [List.map_cons, List.nodup_cons] at h
    obtain ⟨hna, ht⟩ := h
    by_cases hk : a.1 = u
    · have hzero : t.filter (fun r => r.1 == u) = [] :=
        filter_fst_eq_nil u t (hk ▸ hna)
      simp [List.filter_cons, hk, hzero]
    · simpa [List.filter_cons, hk] using iht ht

/-! Insert-if-absent idempotence at the table level. -/

lemma pcInsert_idem (u c c' : String) (tbl : List (String × String)) :
    pcInsert u c (pcInsert u c' tbl) = pcInsert u c' tbl := by
  by_cases hany : tbl.any (fun r => r.1 == u) = true
  · simp [pcInsert, hany]
  · simp [pcInsert, hany, List.any_append]

lemma vuInsert_idem (u : String) (tbl : List String) :
    vuInsert u (vuInsert u tbl) = vuInsert u tbl := by
  by_cases hany : tbl.any (fun r => r == u) = true
  · simp [vuInsert, hany]
  · simp [vuInsert, hany, List.any_append]

/-! Click effect on the browser URL, by navigation oracle. -/

lemma applyClick_browserUrl_none (c : Clickable) (s : CrawlState)
    (h : c.clickTarget = none) : (applyClick c s).browserUrl = s.browserUrl := by
  simp [applyClick, h]

lemma applyClick_browserUrl_some (c : Clickable) (s : CrawlState) (v : String)
    (h : c.clickTarget = some v) : (applyClick c s).browserUrl = v := by
  simp [applyClick, h]

/-! Unfolding lemmas for `crawlPage`. -/

lemma crawlPage_guard (env : Env) (url : String) (depth : Nat) (s : CrawlState)
    (h : url ∈ s.visited ∨ MAX_DEPTH < depth) : crawlPage env url depth s = s := by
  unfold crawlPage
  cases hg : MAX_DEPTH + 1 - depth with
  | zero => rw [crawlPageAux]
  | succ g => rw [crawlPageAux]; exact if_pos h

lemma crawlPage_admitted (env : Env) (url : String) (depth : Nat)
    (s : CrawlState) (h : ¬(url ∈ s.visited ∨ MAX_DEPTH < depth)) :
    crawlPage env url depth s = crawlBody env url depth s := by
  have hd : depth ≤ MAX_DEPTH := by
    rcases Nat.lt_or_ge MAX_DEPTH depth with h1 | h1
    · exact absurd (Or.inr h1) h
    · exact h1
  have hg : MAX_DEPTH + 1 - depth = (MAX_DEPTH + 1 - (depth + 1)) + 1 := by
    omega
  unfold crawlPage crawlBody
  rw [hg, crawlPageAux, if_neg h]
  rfl

/-! ## Claim theorems -/

/-- C1: a call `crawlPage(url, depth)` with `url` already visited or
`depth > MAX_DEPTH` returns the state unchanged — no navigation, no database
write, no visited-set insertion; an admitted call runs `crawlBody`, whose
first step inserts `url` into the visited set, before the navigation and every
later step. -/
theorem crawlPage_admission (env : Env) (url : String) (depth : Nat)
    (s : CrawlState) :
    ((url ∈ s.visited ∨ MAX_DEPTH < depth) → crawlPage env url depth s = s)
    ∧ (¬(url ∈ s.visited ∨ MAX_DEPTH < depth) →
        crawlPage env url depth s = crawlBody env url depth s) :=
  ⟨crawlPage_guard env url depth s, crawlPage_admitted env url depth s⟩

/-- Witness for C1 at closed inputs: a depth-3 call is a no-op, a fresh
depth-0 call runs the body. -/
theorem crawlPage_admission_witness :
    crawlPage envTrivial "http://a.site/" 3 initialState = initialState
    ∧ crawlPage envTrivial "http://a.site/" 0 initialState =
        crawlBody envTrivial "http://a.site/" 0 initialState :=
  ⟨(crawlPage_admission envTrivial "http://a.site/" 3 initialState).1
      (Or.inr (by decide)),
   (crawlPage_admission envTrivial "http://a.site/" 0 initialState).2
      (by decide)⟩

/-- C5: `generateCssSelector` computes exactly the selector described by the
claim — `"#" + id` short-circuit for a non-empty id regardless of ancestry,
otherwise the upward walk collecting per-node fragments (lowercase tag name,
class suffix when a class is present, `:nth-child(k)` with `k` the 1-based
position among the parent's children when the node has siblings), prepending
fragments, stopping at an identified ancestor (prefixing its `"#" + id`) or at
the top, joined with `" > "` (`selectorSpec`). -/
theorem generateCssSelector_spec (e : DomNode) :
    generateCssSelector e = selectorSpec e := by
  cases e with
  | doc => rfl
  | nullNode => rfl
  | elem tag id cls idx nsib parent =>
    by_cases hid : id ≠ ""
    · simp [generateCssSelector, selectorSpec, hid]
    · simp only [ne_eq, not_not] at hid
      subst hid
      simp [generateCssSelector, selectorSpec, genPath_eq_specFragments_append]

/-- C6: `isSameDomain` returns `true` exactly when both URLs parse — the
candidate resolved against the reference as base — with string-equal
hostnames, and returns `false` (it never throws: it is a total function)
whenever either parse fails. -/
theorem isSameDomain_spec (api : UrlApi) (currentUrl newUrl : String) :
    (isSameDomain api currentUrl newUrl = true ↔
      ∃ cur nl, api.parse currentUrl none = some cur ∧
        api.parse newUrl (some currentUrl) = some nl ∧
        cur.hostname = nl.hostname)
    ∧ ((api.parse currentUrl none = none ∨
          api.parse newUrl (some currentUrl) = none) →
        isSameDomain api currentUrl newUrl = false) := by
  constructor
  · unfold isSameDomain
    cases h1 : api.parse currentUrl none with
    | none => simp [h1]
    | some cur =>
      cases h2 : api.parse newUrl (some currentUrl) with
      | none => simp [h1, h2]
      | some nl => simp [h1, h2, beq_iff_eq]
  · intro h
    unfold isSameDomain
    cases hc : api.parse currentUrl none with
    | none => rfl
    | some cur =>
      rcases h with h | h
      · exact absurd hc (by simp [h])
      · simp [h]

/-- Witness for C6: a relative candidate resolves against the reference and
compares equal; an unparsable candidate yields `false`. -/
theorem isSameDomain_spec_witness :
    isSameDomain simpleApi "http://a.site/" "/contact" = true
    ∧ isSameDomain simpleApi "http://a.site/" "not a url" = false :=
  ⟨(isSameDomain_spec simpleApi "http://a.site/" "/contact").1.mpr
      ⟨⟨"a.site"⟩, ⟨"a.site"⟩, by decide, by decide, rfl⟩,
   (isSameDomain_spec simpleApi "http://a.site/" "not a url").2
      (Or.inr (by decide))⟩

/-- C7: every element matched by the discoverer whose extraction succeeds
produces a descriptor in the discoverer's output holding the reported tag
name, the trimmed visible text, the element's href for anchor/link tags, and
the empty string for every other tag. -/
theorem listClickableItems_spec (matched : List Clickable) (c : Clickable)
    (hmem : c ∈ matched) (hok : c.infoOk = true) :
    mkDescriptor c ∈ listClickableItems matched
    ∧ (mkDescriptor c).tagName = c.tagName
    ∧ (mkDescriptor c).textContent = jsTrim c.text
    ∧ (isAnchorOrLink c.tagName = true →
        ∀ h, c.hrefAttr = some h → (mkDescriptor c).href = h)
    ∧ (isAnchorOrLink c.tagName = false → (mkDescriptor c).href = "") := by
  refine ⟨?_, rfl, rfl, ?_, ?_⟩
  · unfold listClickableItems
    exact List.mem_map_of_mem _ (List.mem_filter.mpr ⟨hmem, hok⟩)
  · intro ha h hh
    simp [mkDescriptor, ha, hh]
  · intro ha
    simp [mkDescriptor, ha]

/-- Witness for C7: a concrete anchor produces its descriptor with resolved
href and trimmed text. -/
theorem listClickableItems_spec_witness :
    mkDescriptor sampleAnchor ∈ listClickableItems [sampleAnchor]
    ∧ (mkDescriptor sampleAnchor).href = "http://s.site/x"
    ∧ (mkDescriptor sampleAnchor).textContent = "hi" := by
  have h := listClickableItems_spec [sampleAnchor] sampleAnchor
    (List.mem_singleton_self _) (by decide)
  exact ⟨h.1, h.2.2.2.1 (by decide) _ rfl, by decide⟩

/-- C8: the traversal terminates on every input — the embedding is a total
function, defined by recursion on the gas `MAX_DEPTH + 1 - depth`, which
strictly decreases because every recursive call made by the interaction loop
uses `depth + 1` (third conjunct: `crawlPage` is that gas-indexed recursion at
its own depth); the visited set only grows (first conjunct); and every call
with a visited URL or `depth > MAX_DEPTH` returns its input state immediately
(second conjunct). -/
theorem crawlPage_termination (env : Env) (url : String) (depth : Nat)
    (s : CrawlState) :
    s.visited ⊆ (crawlPage env url depth s).visited
    ∧ ((url ∈ s.visited ∨ MAX_DEPTH < depth) → crawlPage env url depth s = s)
    ∧ crawlPage env url depth s =
        crawlPageAux env (MAX_DEPTH + 1 - depth) url depth s :=
  ⟨crawlPage_visited_mono env url depth s, crawlPage_guard env url depth s, rfl⟩

/-- Witness for C8 at closed inputs. -/
theorem crawlPage_termination_witness :
    initialState.visited ⊆
      (crawlPage envPlain "http://w.site/" 0 initialState).visited
    ∧ crawlPage envPlain "http://w.site/" 3 initialState = initialState
    ∧ crawlPage envPlain "http://w.site/" 0 initialState =
        crawlPageAux envPlain (MAX_DEPTH + 1 - 0) "http://w.site/" 0
          initialState :=
  ⟨(crawlPage_termination envPlain "http://w.site/" 0 initialState).1,
   (crawlPage_termination envPlain "http://w.site/" 3 initialState).2.1
      (Or.inr (by decide)),
   (crawlPage_termination envPlain "http://w.site/" 0 initialState).2.2⟩

/-- C2 counterexample: on `envCross` the page has two descriptors, but the
first element's failure (its click navigates cross-domain, so the
stabilization wait and the recovery wait both time out) aborts the loop — the
second descriptor is never processed, so a single element's failure does abort
the page's remaining descriptors. -/
theorem crawlPage_fault_isolation_cex :
    pageCross.clickables.length = 2
    ∧ (crawlPage envCross "http://a.site/" 0 initialState).db.clickableRows.map
        (fun r => r.otherAttributes) = ["selector: s1"]
    ∧ (crawlPage envCross "http://a.site/" 0 initialState).events =
        [Ev.nav "http://a.site/", Ev.click "s1", Ev.refresh,
         Ev.waitUrl "http://a.site/" false, Ev.logErr siteElement, Ev.refresh,
         Ev.waitUrl "http://a.site/" false, Ev.logErr sitePage] :=
  ⟨by decide, by decide, by decide⟩

/-- C2 (amended): an exception during scrolling, the visibility/enabled
waits, or the click itself is caught and logged, the page is refreshed, and —
the browser still being on the page URL, so the recovery wait succeeds — the
loop continues with the next descriptor.  (Re-location failures skip without
a refresh, and a post-click recovery whose own wait times out aborts the
remaining descriptors; see the counterexample.) -/
theorem processListGo_recovery (env : Env)
    (recurse : String → CrawlState → CrawlState) (pageUrl : String)
    (rest : List Clickable) (s : CrawlState) (c c₂ : Clickable)
    (hf1 : (mkDescriptor c).href = "" ∨
      isSameDomain env.urlApi pageUrl (mkDescriptor c).href = true)
    (hl1 : c.locatable = true) (hs1 : c.scrollWaitOk = false)
    (hf2 : (mkDescriptor c₂).href = "" ∨
      isSameDomain env.urlApi pageUrl (mkDescriptor c₂).href = true)
    (hl2 : c₂.locatable = true) (hs2 : c₂.scrollWaitOk = true)
    (hc2 : c₂.clickOk = false)
    (hurl : s.browserUrl = pageUrl) :
    (processListGo env recurse pageUrl (c :: rest) s =
      processListGo env recurse pageUrl rest
        (pushEv (Ev.waitUrl pageUrl true)
          (doRefresh (pushEv (Ev.logErr siteElement)
            (insertClickableNode (descriptorRow pageUrl (mkDescriptor c)) s)))))
    ∧ (processListGo env recurse pageUrl (c₂ :: rest) s =
        processListGo env recurse pageUrl rest
          (pushEv (Ev.waitUrl pageUrl true)
            (doRefresh (pushEv (Ev.logErr siteElement)
              (insertClickableNode (descriptorRow pageUrl (mkDescriptor c₂))
                s))))) := by
  constructor
  · have hfc : ((mkDescriptor c).href != "" &&
        !(isSameDomain env.urlApi pageUrl (mkDescriptor c).href)) = false := by
      rcases hf1 with h | h <;> simp [h]
    simp [processListGo, recoverState, hfc, hl1, hs1, hurl]
  · have hfc : ((mkDescriptor c₂).href != "" &&
        !(isSameDomain env.urlApi pageUrl (mkDescriptor c₂).href)) = false := by
      rcases hf2 with h | h <;> simp [h]
    simp [processListGo, recoverState, hfc, hl2, hs2, hc2, hurl]

/-- Witness for the amended C2 at closed inputs: one element with failing
scroll/waits and one with a failing click, each recovered with a refresh, the
loop reaching the following (empty) descriptor list. -/
theorem processListGo_recovery_witness :
    (processListGo envTrivial (fun _ t => t) "http://a.site/" [badWaitButton]
        (onPage "http://a.site/") =
      processListGo envTrivial (fun _ t => t) "http://a.site/" []
        (pushEv (Ev.waitUrl "http://a.site/" true)
          (doRefresh (pushEv (Ev.logErr siteElement)
            (insertClickableNode
              (descriptorRow "http://a.site/" (mkDescriptor badWaitButton))
              (onPage "http://a.site/"))))))
    ∧ (processListGo envTrivial (fun _ t => t) "http://a.site/" [badClickButton]
        (onPage "http://a.site/") =
      processListGo envTrivial (fun _ t => t) "http://a.site/" []
        (pushEv (Ev.waitUrl "http://a.site/" true)
          (doRefresh (pushEv (Ev.logErr siteElement)
            (insertClickableNode
              (descriptorRow "http://a.site/" (mkDescriptor badClickButton))
              (onPage "http://a.site/")))))) :=
  processListGo_recovery envTrivial (fun _ t => t) "http://a.site/" []
    (onPage "http://a.site/") badWaitButton badClickButton
    (Or.inl (by decide)) (by decide) (by decide)
    (Or.inl (by decide)) (by decide) (by decide) (by decide) (by decide)

/-- C3 counterexample: on `envStale` both selectors are stale; each is logged
and skipped and the loop continues, but no refresh event ever occurs — the
page is not refreshed before the next descriptor is attempted. -/
theorem stale_selector_cex :
    (crawlPage envStale "http://c.site/" 0 initialState).events =
      [Ev.nav "http://c.site/", Ev.logErr siteFind, Ev.logErr siteFind]
    ∧ (crawlPage envStale "http://c.site/" 0 initialState).db.clickableRows.map
        (fun r => r.otherAttributes) = ["selector: t1", "selector: t2"]
    ∧ Ev.refresh ∉ (crawlPage envStale "http://c.site/" 0 initialState).events :=
  ⟨by decide, by decide, by decide⟩

/-- C3 (amended): a descriptor whose persisted selector fails to re-locate a
live element is logged and skipped and the loop continues with the next
descriptor, with no page refresh in this case. -/
theorem processListGo_stale_skip (env : Env)
    (recurse : String → CrawlState → CrawlState) (pageUrl : String)
    (c : Clickable) (rest : List Clickable) (s : CrawlState)
    (hfilter : (mkDescriptor c).href = "" ∨
      isSameDomain env.urlApi pageUrl (mkDescriptor c).href = true)
    (hloc : c.locatable = false) :
    processListGo env recurse pageUrl (c :: rest) s =
      processListGo env recurse pageUrl rest
        (pushEv (Ev.logErr siteFind)
          (insertClickableNode (descriptorRow pageUrl (mkDescriptor c)) s)) := by
  have hfc : ((mkDescriptor c).href != "" &&
      !(isSameDomain env.urlApi pageUrl (mkDescriptor c).href)) = false := by
    rcases hfilter with h | h <;> simp [h]
  simp [processListGo, hfc, hloc]

/-- Witness for the amended C3 at closed inputs. -/
theorem processListGo_stale_skip_witness :
    processListGo envTrivial (fun _ t => t) "http://a.site/" [staleBtn]
        (onPage "http://a.site/") =
      processListGo envTrivial (fun _ t => t) "http://a.site/" []
        (pushEv (Ev.logErr siteFind)
          (insertClickableNode
            (descriptorRow "http://a.site/" (mkDescriptor staleBtn))
            (onPage "http://a.site/"))) :=
  processListGo_stale_skip envTrivial (fun _ t => t) "http://a.site/" staleBtn
    [] (onPage "http://a.site/") (Or.inl (by decide)) (by decide)

/-- C4 counterexample: on `envAnchor`, the page carries one same-domain
anchor whose target page exists and is unvisited, yet after the interaction
loop `crawlPage` returns without crawling it — there is no link sweep. -/
theorem crawlPage_link_sweep_cex :
    (crawlPage envAnchor "http://d.site/" 0 initialState).visited =
      ["http://d.site/"]
    ∧ (mkDescriptor anchorNoNav).href = "http://d.site/next"
    ∧ isSameDomain simpleApi "http://d.site/" "http://d.site/next" = true
    ∧ (envAnchor.pages "http://d.site/next").isSome = true :=
  ⟨by decide, by decide, by decide, by decide⟩

/-- C4 (amended): after the admission check and page load, `crawlPage` is
exactly the persist steps followed by the interaction loop — it ends with the
loop, performing no separate anchor enumeration; the only recursion is the
loop's `crawlPage(newUrl, depth + 1)` on a same-domain post-click navigation
(the separate link sweep exists only in the sibling crawler function). -/
theorem crawlPage_no_link_sweep (env : Env) (url : String) (depth : Nat)
    (s : CrawlState) (pg : Page)
    (h : ¬(url ∈ s.visited ∨ MAX_DEPTH < depth))
    (hpg : env.pages url = some pg) :
    crawlPage env url depth s =
      processListGo env (fun u t => crawlPage env u (depth + 1) t) url
        (pg.clickables.filter (fun c => c.infoOk))
        (insertVisitedUrl url (insertPageContent url pg.bodyText
          (doNav url (markVisited url s)))) := by
  rw [crawlPage_admitted env url depth s h]
  unfold crawlBody
  rw [hpg]

/-- Witness for the amended C4 at closed inputs. -/
theorem crawlPage_no_link_sweep_witness :
    crawlPage envPlain "http://w.site/" 0 initialState =
      processListGo envPlain
        (fun u t => crawlPage envPlain u (0 + 1) t) "http://w.site/"
        (List.filter (fun c => c.infoOk)
          (Page.clickables { bodyText := "w", clickables := [] }))
        (insertVisitedUrl "http://w.site/"
          (insertPageContent "http://w.site/"
            (Page.bodyText { bodyText := "w", clickables := [] })
            (doNav "http://w.site/" (markVisited "http://w.site/"
              initialState)))) :=
  crawlPage_no_link_sweep envPlain "http://w.site/" 0 initialState
    { bodyText := "w", clickables := [] } (by decide) (by decide)

/-- C9: crawling the same URL twice leaves at most one `page_contents` row and
at most one `visited_urls` row for it (given the tables' unique keys held
before); once the URL is in the visited set after the first call, the second
call is the identity; and the insert-if-absent table writes are idempotent. -/
theorem crawlPage_idempotent_revisit (env : Env) (url : String) (d d' : Nat)
    (s : CrawlState) (c c' : String) (tbl : List (String × String))
    (tbl2 : List String)
    (h1 : (s.db.pageContents.map Prod.fst).Nodup)
    (h2 : s.db.visitedRows.Nodup) :
    ((crawlPage env url d' (crawlPage env url d s)).db.pageContents.filter
        (fun r => r.1 == url)).length ≤ 1
    ∧ (crawlPage env url d' (crawlPage env url d s)).db.visitedRows.count url ≤ 1
    ∧ (url ∈ (crawlPage env url d s).visited →
        crawlPage env url d' (crawlPage env url d s) = crawlPage env url d s)
    ∧ pcInsert url c (pcInsert url c' tbl) = pcInsert url c' tbl
    ∧ vuInsert url (vuInsert url tbl2) = vuInsert url tbl2 := by
  have hinv : DbInv (crawlPage env url d' (crawlPage env url d s)) :=
    crawlPage_dbInv _ _ _ _ (crawlPage_dbInv _ _ _ _ ⟨h1, h2⟩)
  refine ⟨filter_key_length_le_one _ _ hinv.1, ?_, ?_,
    pcInsert_idem url c c' tbl, vuInsert_idem url tbl2⟩
  · exact List.nodup_iff_count_le_one.mp hinv.2 url
  · intro hmem
    exact crawlPage_guard _ _ _ _ (Or.inl hmem)

/-- Witness for C9 at closed inputs: crawling `http://w.site/` twice. -/
theorem crawlPage_idempotent_revisit_witness :
    ((crawlPage envPlain "http://w.site/" 1 (crawlPage envPlain "http://w.site/"
        0 initialState)).db.pageContents.filter
        (fun r => r.1 == "http://w.site/")).length ≤ 1
    ∧ (crawlPage envPlain "http://w.site/" 1 (crawlPage envPlain "http://w.site/"
        0 initialState)).db.visitedRows.count "http://w.site/" ≤ 1
    ∧ crawlPage envPlain "http://w.site/" 1 (crawlPage envPlain "http://w.site/"
        0 initialState) = crawlPage envPlain "http://w.site/" 0 initialState
    ∧ pcInsert "http://w.site/" "x" (pcInsert "http://w.site/" "y" []) =
        pcInsert "http://w.site/" "y" []
    ∧ vuInsert "http://w.site/" (vuInsert "http://w.site/" []) =
        vuInsert "http://w.site/" [] := by
  have h := crawlPage_idempotent_revisit envPlain "http://w.site/" 0 1
    initialState "x" "y" [] [] (by decide) (by decide)
  exact ⟨h.1, h.2.1, h.2.2.1 (by decide), h.2.2.2.1, h.2.2.2.2⟩

/-- C10 counterexample: on `envNoNav` the single element's click navigates
cross-domain; the branch writes no database record, but its effect is not
just one refresh and a stabilization wait — the wait times out, the recovery
refreshes again, its wait times out too, and the page's processing aborts. -/
theorem noNav_branch_cex :
    (crawlPage envNoNav "http://h.site/" 0 initialState).events =
      [Ev.nav "http://h.site/", Ev.click "u1", Ev.refresh,
       Ev.waitUrl "http://h.site/" false, Ev.logErr siteElement, Ev.refresh,
       Ev.waitUrl "http://h.site/" false, Ev.logErr sitePage]
    ∧ (crawlPage envNoNav "http://h.site/" 0 initialState).db.pageContents =
        [("http://h.site/", "body")]
    ∧ (crawlPage envNoNav "http://h.site/" 0 initialState).db.visitedRows =
        ["http://h.site/"] :=
  ⟨by decide, by decide, by decide⟩

/-- C10 (amended): a clicked descriptor never writes a database record in the
post-click branch — the page-content and visited-url writes happen once
before the loop.  When the click leaves the URL unchanged, the branch's sole
effect is one refresh and a successful wait for the unchanged URL (first
conjunct).  When the click navigates cross-domain (to a URL differing from
the page URL), still nothing is written, but the refresh leaves the browser
on the foreign URL, the stabilization wait and the recovery wait both time
out, and the loop aborts, skipping the remaining descriptors (second
conjunct). -/
theorem processListGo_noNav_effects (env : Env)
    (recurse : String → CrawlState → CrawlState) (pageUrl : String)
    (rest : List Clickable) (s : CrawlState) (c c₂ : Clickable) (v : String)
    (hfa : (mkDescriptor c).href = "" ∨
      isSameDomain env.urlApi pageUrl (mkDescriptor c).href = true)
    (hla : c.locatable = true) (hsa : c.scrollWaitOk = true)
    (hca : c.clickOk = true) (hta : c.clickTarget = none)
    (hfb : (mkDescriptor c₂).href = "" ∨
      isSameDomain env.urlApi pageUrl (mkDescriptor c₂).href = true)
    (hlb : c₂.locatable = true) (hsb : c₂.scrollWaitOk = true)
    (hcb : c₂.clickOk = true) (htb : c₂.clickTarget = some v)
    (hv1 : (v == s.browserUrl) = false)
    (hv2 : isSameDomain env.urlApi pageUrl v = false)
    (hv3 : (v == pageUrl) = false) :
    (processListGo env recurse pageUrl (c :: rest) s =
      processListGo env recurse pageUrl rest
        (pushEv (Ev.waitUrl s.browserUrl true)
          (doRefresh (applyClick c
            (insertClickableNode (descriptorRow pageUrl (mkDescriptor c)) s)))))
    ∧ (processListGo env recurse pageUrl (c₂ :: rest) s =
        pushEv (Ev.logErr sitePage)
          (pushEv (Ev.waitUrl pageUrl false)
            (doRefresh (pushEv (Ev.logErr siteElement)
              (pushEv (Ev.waitUrl s.browserUrl false)
                (doRefresh (applyClick c₂
                  (insertClickableNode (descriptorRow pageUrl
                    (mkDescriptor c₂)) s)))))))) := by
  constructor
  · have hfc : ((mkDescriptor c).href != "" &&
        !(isSameDomain env.urlApi pageUrl (mkDescriptor c).href)) = false := by
      rcases hfa with h | h <;> simp [h]
    simp [processListGo, hfc, hla, hsa, hca,
      applyClick_browserUrl_none c _ hta]
  · have hfc : ((mkDescriptor c₂).href != "" &&
        !(isSameDomain env.urlApi pageUrl (mkDescriptor c₂).href)) = false := by
      rcases hfb with h | h <;> simp [h]
    have hne : (v != s.browserUrl) = true := by
      simp [bne, hv1]
    simp [processListGo, recoverState, hfc, hlb, hsb, hcb,
      applyClick_browserUrl_some c₂ _ v htb, hne, hv1, hv2, hv3]

/-- Witness for the amended C10 at closed inputs. -/
theorem processListGo_noNav_effects_witness :
    (processListGo envTrivial (fun _ t => t) "http://h.site/"
        [mkButton "w1" none] (onPage "http://h.site/") =
      processListGo envTrivial (fun _ t => t) "http://h.site/" []
        (pushEv (Ev.waitUrl (onPage "http://h.site/").browserUrl true)
          (doRefresh (applyClick (mkButton "w1" none)
            (insertClickableNode (descriptorRow "http://h.site/"
              (mkDescriptor (mkButton "w1" none))) (onPage "http://h.site/"))))))
    ∧ (processListGo envTrivial (fun _ t => t) "http://h.site/" [crossButton]
        (onPage "http://h.site/") =
      pushEv (Ev.logErr sitePage)
        (pushEv (Ev.waitUrl "http://h.site/" false)
          (doRefresh (pushEv (Ev.logErr siteElement)
            (pushEv (Ev.waitUrl (onPage "http://h.site/").browserUrl false)
              (doRefresh (applyClick crossButton
                (insertClickableNode (descriptorRow "http://h.site/"
                  (mkDescriptor crossButton))
                  (onPage "http://h.site/"))))))))) :=
  processListGo_noNav_effects envTrivial (fun _ t => t) "http://h.site/" []
    (onPage "http://h.site/") (mkButton "w1" none) crossButton
    "http://z.site/far"
    (Or.inl (by decide)) (by decide) (by decide) (by decide) (by decide)
    (Or.inl (by decide)) (by decide) (by decide) (by decide) (by decide)
    (by decide) (by decide) (by decide)

end WebCrawler
